import Mathlib

/-!
Verification development for the Dilithium signature-aggregation research
prototype of the qbitcoin repository
(`research/dilithium-aggregation/prototypes/aggregation_prototype.{h,cpp}` and
`advanced_aggregation.{h,cpp}`).

Modelling conventions:
* `std::vector<unsigned char>` is modelled as `List Nat`; every read of an
  element applies `% 256`, reflecting the `unsigned char` element type, and
  every byte written by the code is produced with an explicit `% 256`
  (the C++ `static_cast<unsigned char>` / `& 0xFF` operations).
* `uint256` (`simple_uint256.h`: four little-endian `uint64_t` words exposing a
  32-byte little-endian view via `begin()/end()` and `GetUint64`) is modelled
  by its little-endian numeric value, a `Nat`; its byte view is `u256bytes`.
* `uint32_t` / `uint64_t` / `size_t` arithmetic carries explicit `% 2^32` and
  `% 2^64` where the code narrows or overflows.
* `std::hash<std::string>` is implementation-defined but deterministic within
  a process; it is modelled by an arbitrary function parameter
  `hasher : List Nat → Nat` (applied to the concatenated bytes, truncated to
  `size_t` range), passed identically to `Aggregate` and `VerifyAggregated`
  exactly as both call the same `std::hash` instantiation.
* Bit-ors of disjoint shifted byte lanes (little-endian decoding such as
  `b0 | (b1 << 8) | (b2 << 16)` with each `b` below 256) are written as the
  equal sums `b0 + b1 * 2^8 + b2 * 2^16`.
* `std::chrono::system_clock::now()` is modelled as an explicit `now`
  parameter of `Aggregate`; console output and the mutable `benchmarks`
  performance log have no effect on any result and are not modelled.
-/

set_option maxRecDepth 8000

namespace QbitcoinAgg

/-- Dilithium modulus used by the prototypes (`DILITHIUM_Q` / the literal
`8380417` in `aggregation_prototype.cpp`). -/
def dilithiumQ : Nat := 8380417

/-- Model of `struct SimpleAggregatedSignature` (aggregation_prototype.h). -/
structure SimpleAggregatedSignature where
  aggregated_data : List Nat
  message_hashes : List Nat
  pubkey_data : List (List Nat)
  signature_count : Nat
  aggregation_timestamp : Nat
deriving DecidableEq, Repr

/-- The default-constructed `SimpleAggregatedSignature`. -/
def emptyAgg : SimpleAggregatedSignature :=
  { aggregated_data := [], message_hashes := [], pubkey_data := []
    signature_count := 0, aggregation_timestamp := 0 }

/-- Model of `SimpleAggregatedSignature::IsValid` (aggregation_prototype.h). -/
def SimpleAggregatedSignature.IsValid (a : SimpleAggregatedSignature) : Prop :=
  a.aggregated_data ≠ [] ∧ 0 < a.signature_count ∧
    a.message_hashes.length = a.signature_count ∧
    a.pubkey_data.length = a.signature_count

instance (a : SimpleAggregatedSignature) : Decidable a.IsValid := by
  unfold SimpleAggregatedSignature.IsValid; infer_instance

/-- Model of `SimpleAggregatedSignature::GetSerializedSize` (aggregation_prototype.h):
data bytes, 32 bytes per message hash, the pubkey bytes, plus
`sizeof(uint32_t) + sizeof(uint64_t)`. -/
def SimpleAggregatedSignature.GetSerializedSize (a : SimpleAggregatedSignature) : Nat :=
  a.aggregated_data.length + a.message_hashes.length * 32 +
    (a.pubkey_data.map List.length).sum + 4 + 8

/-- The three `pending_*` vectors of `DilithiumAggregatorPrototype`. -/
structure Batch where
  pending_signatures : List (List Nat)
  pending_hashes : List Nat
  pending_pubkeys : List (List Nat)
deriving DecidableEq, Repr

/-- A freshly constructed aggregator's (empty) batch state. -/
def emptyBatch : Batch := { pending_signatures := [], pending_hashes := [], pending_pubkeys := [] }

/-- The three `pending_*` vectors always have equal lengths (they grow only in
lockstep inside `AddSignature`). -/
def Batch.Wf (b : Batch) : Prop :=
  b.pending_hashes.length = b.pending_signatures.length ∧
    b.pending_pubkeys.length = b.pending_signatures.length

instance (b : Batch) : Decidable b.Wf := by unfold Batch.Wf; infer_instance

/-- Model of `DilithiumAggregatorPrototype::AddSignature` (aggregation_prototype.cpp):
empty signature or pubkey is rejected (`return false`, batch untouched);
otherwise the entry is appended to all three pending vectors and the call
returns `true`.  Wrong sizes only trigger a console warning; no cryptographic
verification of any kind is performed. -/
def AddSignature (b : Batch) (signature pubkey : List Nat) (message_hash : Nat) :
    Bool × Batch :=
  if signature.isEmpty || pubkey.isEmpty then (false, b)
  else
    (true,
      { pending_signatures := b.pending_signatures ++ [signature]
        pending_hashes := b.pending_hashes ++ [message_hash]
        pending_pubkeys := b.pending_pubkeys ++ [pubkey] })

/-- Model of `DilithiumAggregatorPrototype::ClearBatch`: clears all three pending
vectors. -/
def ClearBatch (_b : Batch) : Batch := emptyBatch

/-- The 32-byte little-endian view `hash.begin() .. hash.end()` of a
`uint256` value. -/
def u256bytes (v : Nat) : List Nat :=
  (List.range 32).map fun i => v / 256 ^ i % 256

/-- The concatenation `hash_data` of the byte views of a list of `uint256`
message hashes, as built in both `Aggregate` and `VerifyAggregated`. -/
def hashData (hashes : List Nat) : List Nat :=
  (hashes.map u256bytes).flatten

/-- The value of the `uint256 hash_commitment` computed in `Aggregate` (and of
`expected_hash_commitment` in `VerifyAggregated`): zero when `hash_data` is
empty, else `std::hash<std::string>` of the concatenated bytes memcpy-ed into
the low 8 bytes (`GetUint64(0)` then reads exactly that `size_t` value). -/
def hashCommitment (hasher : List Nat → Nat) (hashes : List Nat) : Nat :=
  if (hashData hashes).isEmpty then 0 else hasher (hashData hashes) % 2 ^ 64

/-- Little-endian serialization of one `uint32_t` response coefficient, the
four `push_back` calls per coefficient in `Aggregate`. -/
def u32bytes (v : Nat) : List Nat :=
  [v % 256, v / 2 ^ 8 % 256, v / 2 ^ 16 % 256, v / 2 ^ 24 % 256]

/-- The inner `component` accumulation of `Aggregate`: little-endian combine
of up to four signature bytes starting at `j * 4`, guarded by
`(j * 4 + k) < signature.size()`. -/
def sigComponent (sig : List Nat) (j : Nat) : Nat :=
  (List.range 4).foldl
    (fun acc k => if j * 4 + k < sig.length then acc + sig.getD (j * 4 + k) 0 % 256 * 2 ^ (k * 8) else acc)
    0

/-- One iteration of `Aggregate`'s outer loop: fold signature `sig` into the
256-entry `aggregated_response`, updating indices
`j < min(signature.size() / 13, 256)` modulo the Dilithium modulus (the
`uint32_t` addition wraps modulo `2^32` before the reduction). -/
def updateResponse (resp sig : List Nat) : List Nat :=
  (List.range 256).map fun j =>
    if j < min (sig.length / 13) 256 then
      (resp.getD j 0 + sigComponent sig j) % 2 ^ 32 % dilithiumQ
    else resp.getD j 0

/-- Value of `Aggregate`'s `aggregated_response` vector after folding in all pending
signatures (initialised to 256 zeros). -/
def aggregatedResponse (sigs : List (List Nat)) : List Nat :=
  sigs.foldl updateResponse (List.replicate 256 0)

/-- The 32 bytes `Aggregate` pushes for the first 8 aggregated response
coefficients. -/
def responseBytes (resp : List Nat) : List Nat :=
  ((List.range 8).map fun i => u32bytes (resp.getD i 0)).flatten

/-- The final three commitment bytes `Aggregate` pushes: the low 24 bits of
`hash_commitment.GetUint64(0)`, little-endian. -/
def commitmentBytes (hc : Nat) : List Nat :=
  [hc % 256, hc / 2 ^ 8 % 256, hc / 2 ^ 16 % 256]

/-- Model of `DilithiumAggregatorPrototype::Aggregate` (aggregation_prototype.cpp).
On an empty batch it returns the default-constructed result.  Otherwise it
copies the pending hashes and pubkeys into the artifact, stores the batch size
as `uint32_t` and the wall-clock seconds (`now`) as `uint64_t`, and builds
`aggregated_data` as: magic byte `0x51`, the batch size narrowed to one byte,
the first 8 aggregated response coefficients serialized little-endian, and the
3 truncated hash-commitment bytes. -/
def Aggregate (hasher : List Nat → Nat) (now : Nat) (b : Batch) :
    SimpleAggregatedSignature :=
  if b.pending_signatures.isEmpty then emptyAgg
  else
    { aggregated_data :=
        0x51 :: b.pending_signatures.length % 256 ::
          (responseBytes (aggregatedResponse b.pending_signatures) ++
            commitmentBytes (hashCommitment hasher b.pending_hashes))
      message_hashes := b.pending_hashes
      pubkey_data := b.pending_pubkeys
      signature_count := b.pending_signatures.length % 2 ^ 32
      aggregation_timestamp := now % 2 ^ 64 }

/-- The `Aggregate` method viewed together with its effect on the aggregator's
batch state: the method body never writes `pending_signatures`,
`pending_hashes` or `pending_pubkeys` (its only member write is to the
`benchmarks` performance log), so the batch component of the result is the
input batch itself. -/
def AggregateCall (hasher : List Nat → Nat) (now : Nat) (b : Batch) :
    SimpleAggregatedSignature × Batch :=
  (Aggregate hasher now b, b)

/-- The eight `stored_response` coefficients `VerifyAggregated` decodes
(little-endian, 4 bytes each, starting at offset 2).  The decoded values are
never compared against anything in the function body. -/
def storedResponse (cd : List Nat) : List Nat :=
  (List.range 8).map fun i =>
    cd.getD (2 + i * 4) 0 % 256 + cd.getD (2 + i * 4 + 1) 0 % 256 * 2 ^ 8 +
      cd.getD (2 + i * 4 + 2) 0 % 256 * 2 ^ 16 + cd.getD (2 + i * 4 + 3) 0 % 256 * 2 ^ 24

/-- Model of `DilithiumAggregatorPrototype::VerifyAggregated` (aggregation_prototype.cpp).
Checks, in order: `IsValid()` structure, minimum compressed size 35, magic
byte `0x51`, the one-byte stored count against `signature_count`; decodes the
(unused) stored response; then the only check deciding `verification_success`:
the last three data bytes against the low 24 bits of the hash commitment
recomputed from the artifact's own `message_hashes`. -/
def VerifyAggregated (hasher : List Nat → Nat) (a : SimpleAggregatedSignature) : Bool :=
  if a.IsValid then
    if a.aggregated_data.length < 35 then false
    else if a.aggregated_data.getD 0 0 % 256 = 0x51 then
      if a.aggregated_data.getD 1 0 % 256 = a.signature_count then
        let _sr := storedResponse a.aggregated_data
        let stored :=
          a.aggregated_data.getD (a.aggregated_data.length - 3) 0 % 256 +
            a.aggregated_data.getD (a.aggregated_data.length - 2) 0 % 256 * 2 ^ 8 +
            a.aggregated_data.getD (a.aggregated_data.length - 1) 0 % 256 * 2 ^ 16
        decide (stored = hashCommitment hasher a.message_hashes % 2 ^ 24)
      else false
    else false
  else false

/-! ### Basic structural lemmas about `Aggregate`'s output -/

theorem responseBytes_length (resp : List Nat) : (responseBytes resp).length = 32 := by
  simp only [responseBytes, List.length_flatten, List.map_map]
  have h : (List.length ∘ fun i => u32bytes (resp.getD i 0)) = fun _ => 4 :=
    funext fun i => rfl
  rw [h]
  decide

theorem aggregate_data (hasher : List Nat → Nat) (now : Nat) (b : Batch)
    (hne : b.pending_signatures ≠ []) :
    (Aggregate hasher now b).aggregated_data =
      [0x51, b.pending_signatures.length % 256] ++
        (responseBytes (aggregatedResponse b.pending_signatures) ++
          commitmentBytes (hashCommitment hasher b.pending_hashes)) := by
  have h : b.pending_signatures.isEmpty = false := by
    simp [List.isEmpty_iff, hne]
  simp [Aggregate, h]

theorem aggregate_hashes (hasher : List Nat → Nat) (now : Nat) (b : Batch)
    (hne : b.pending_signatures ≠ []) :
    (Aggregate hasher now b).message_hashes = b.pending_hashes := by
  have h : b.pending_signatures.isEmpty = false := by
    simp [List.isEmpty_iff, hne]
  simp [Aggregate, h]

theorem aggregate_pubkeys (hasher : List Nat → Nat) (now : Nat) (b : Batch)
    (hne : b.pending_signatures ≠ []) :
    (Aggregate hasher now b).pubkey_data = b.pending_pubkeys := by
  have h : b.pending_signatures.isEmpty = false := by
    simp [List.isEmpty_iff, hne]
  simp [Aggregate, h]

theorem aggregate_count (hasher : List Nat → Nat) (now : Nat) (b : Batch)
    (hne : b.pending_signatures ≠ []) :
    (Aggregate hasher now b).signature_count = b.pending_signatures.length % 2 ^ 32 := by
  have h : b.pending_signatures.isEmpty = false := by
    simp [List.isEmpty_iff, hne]
  simp [Aggregate, h]

theorem aggregate_timestamp (hasher : List Nat → Nat) (now : Nat) (b : Batch)
    (hne : b.pending_signatures ≠ []) :
    (Aggregate hasher now b).aggregation_timestamp = now % 2 ^ 64 := by
  have h : b.pending_signatures.isEmpty = false := by
    simp [List.isEmpty_iff, hne]
  simp [Aggregate, h]

theorem aggregate_data_length (hasher : List Nat → Nat) (now : Nat) (b : Batch)
    (hne : b.pending_signatures ≠ []) :
    (Aggregate hasher now b).aggregated_data.length = 37 := by
  rw [aggregate_data hasher now b hne]
  simp [responseBytes_length, commitmentBytes]

theorem aggregate_data_getD0 (hasher : List Nat → Nat) (now : Nat) (b : Batch)
    (hne : b.pending_signatures ≠ []) :
    (Aggregate hasher now b).aggregated_data.getD 0 0 = 0x51 := by
  rw [aggregate_data hasher now b hne]; rfl

theorem aggregate_data_getD1 (hasher : List Nat → Nat) (now : Nat) (b : Batch)
    (hne : b.pending_signatures ≠ []) :
    (Aggregate hasher now b).aggregated_data.getD 1 0 = b.pending_signatures.length % 256 := by
  rw [aggregate_data hasher now b hne]; rfl

theorem aggregate_data_last3 (hasher : List Nat → Nat) (now : Nat) (b : Batch)
    (hne : b.pending_signatures ≠ []) :
    (Aggregate hasher now b).aggregated_data.getD 34 0 =
        hashCommitment hasher b.pending_hashes % 256 ∧
      (Aggregate hasher now b).aggregated_data.getD 35 0 =
        hashCommitment hasher b.pending_hashes / 2 ^ 8 % 256 ∧
      (Aggregate hasher now b).aggregated_data.getD 36 0 =
        hashCommitment hasher b.pending_hashes / 2 ^ 16 % 256 := by
  rw [aggregate_data hasher now b hne]
  have hlen2 : ([0x51, b.pending_signatures.length % 256] : List Nat).length = 2 := rfl
  have hrb := responseBytes_length (aggregatedResponse b.pending_signatures)
  refine ⟨?_, ?_, ?_⟩
  · rw [List.getD_append_right _ _ _ _ (by rw [hlen2]; omega), hlen2,
      List.getD_append_right _ _ _ _ (by rw [hrb]), hrb]
    rfl
  · rw [List.getD_append_right _ _ _ _ (by rw [hlen2]; omega), hlen2,
      List.getD_append_right _ _ _ _ (by rw [hrb]; omega), hrb]
    rfl
  · rw [List.getD_append_right _ _ _ _ (by rw [hlen2]; omega), hlen2,
      List.getD_append_right _ _ _ _ (by rw [hrb]; omega), hrb]
    rfl

theorem aggregate_isValid (hasher : List Nat → Nat) (now : Nat) (b : Batch)
    (hwf : b.Wf) (hne : b.pending_signatures ≠ [])
    (hlt : b.pending_signatures.length < 2 ^ 32) :
    (Aggregate hasher now b).IsValid := by
  have hlen := Nat.mod_eq_of_lt hlt
  refine ⟨?_, ?_, ?_, ?_⟩
  · rw [aggregate_data hasher now b hne]; simp
  · rw [aggregate_count hasher now b hne, hlen]
    exact List.length_pos.mpr hne
  · rw [aggregate_count hasher now b hne, aggregate_hashes hasher now b hne, hlen]
    exact hwf.1
  · rw [aggregate_count hasher now b hne, aggregate_pubkeys hasher now b hne, hlen]
    exact hwf.2

/-- The three little-endian commitment bytes reassemble to the low 24 bits of
the commitment. -/
theorem commitment_bytes_reassemble (hc : Nat) :
    hc % 256 % 256 + hc / 2 ^ 8 % 256 % 256 * 2 ^ 8 + hc / 2 ^ 16 % 256 % 256 * 2 ^ 16 =
      hc % 2 ^ 24 := by
  omega

/-- Round trip: on a well-formed non-empty batch of fewer than 256 entries,
`VerifyAggregated` accepts `Aggregate`'s output (same `hasher` on both sides,
as both call the same `std::hash` instantiation). -/
theorem verify_aggregate_roundtrip (hasher : List Nat → Nat) (now : Nat) (b : Batch)
    (hwf : b.Wf) (hne : b.pending_signatures ≠ [])
    (hlt : b.pending_signatures.length < 256) :
    VerifyAggregated hasher (Aggregate hasher now b) = true := by
  have hlt32 : b.pending_signatures.length < 2 ^ 32 := by omega
  have hvalid := aggregate_isValid hasher now b hwf hne hlt32
  have h37 := aggregate_data_length hasher now b hne
  have h0 := aggregate_data_getD0 hasher now b hne
  have h1 := aggregate_data_getD1 hasher now b hne
  have hcnt := aggregate_count hasher now b hne
  have hmsg := aggregate_hashes hasher now b hne
  obtain ⟨h34, h35, h36⟩ := aggregate_data_last3 hasher now b hne
  unfold VerifyAggregated
  rw [if_pos hvalid, h37]
  rw [if_neg (by omega)]
  rw [if_pos (by rw [h0])]
  rw [if_pos (by rw [h1, hcnt]; omega)]
  show decide _ = true
  rw [decide_eq_true_eq]
  have : (37 : Nat) - 3 = 34 := rfl
  rw [this, h34]
  have : (37 : Nat) - 2 = 35 := rfl
  rw [this, h35]
  have : (37 : Nat) - 1 = 36 := rfl
  rw [this, h36, hmsg]
  exact commitment_bytes_reassemble _

/-- Verification reads `pubkey_data` only through its length (inside
`IsValid()`); replacing the stored public keys by any same-length list leaves
the result of `VerifyAggregated` unchanged. -/
theorem verify_pubkey_invariant (hasher : List Nat → Nat) (a : SimpleAggregatedSignature)
    (pk2 : List (List Nat)) (hlen : pk2.length = a.pubkey_data.length) :
    VerifyAggregated hasher { a with pubkey_data := pk2 } = VerifyAggregated hasher a := by
  have hiv : ({ a with pubkey_data := pk2 } : SimpleAggregatedSignature).IsValid ↔ a.IsValid := by
    unfold SimpleAggregatedSignature.IsValid
    rw [show ({ a with pubkey_data := pk2 } : SimpleAggregatedSignature).pubkey_data = pk2 from rfl,
      hlen]
  unfold VerifyAggregated
  by_cases hv : a.IsValid
  · rw [if_pos hv, if_pos (hiv.mpr hv)]
  · rw [if_neg hv, if_neg (fun h => hv (hiv.mp h))]

/-! ### Concrete fixtures used by counterexamples and witnesses -/

/-- A concrete stand-in for the implementation-defined `std::hash<std::string>`;
all universally quantified theorems hold for every hasher, so any concrete
choice instantiates them. -/
def trivialHasher : List Nat → Nat := fun _ => 0

/-- A second concrete hasher (first byte of the input), used where two
different hash-commitment values are needed. -/
def headHasher : List Nat → Nat := fun l => l.getD 0 0

/-- Modelled from the spec: the external lattice-signature primitive's
`Verify(PublicKey, digest, Signature) -> bool` is a black box not present in
this repository.  This instance represents a primitive under which every
signature verifies. -/
def primAccepts : List Nat → Nat → List Nat → Bool := fun _ _ _ => true

/-- Modelled from the spec: the external lattice-signature primitive's
`Verify(PublicKey, digest, Signature) -> bool` is a black box not present in
this repository.  This instance represents a primitive under which no
signature verifies. -/
def primRejects : List Nat → Nat → List Nat → Bool := fun _ _ _ => false

/-- Predicate of the spec's batch invariant: every entry's signature
individually verifies against its (public key, digest) pair under the
primitive `prim`.  The prototype never evaluates this predicate. -/
def EntriesVerify (prim : List Nat → Nat → List Nat → Bool) (b : Batch) : Prop :=
  ∀ i, i < b.pending_signatures.length →
    prim (b.pending_pubkeys.getD i []) (b.pending_hashes.getD i 0)
      (b.pending_signatures.getD i []) = true

instance (prim : List Nat → Nat → List Nat → Bool) (b : Batch) :
    Decidable (EntriesVerify prim b) := by
  unfold EntriesVerify; exact Nat.decidableBallLT _ _

/-- A one-entry batch (as built by one successful `AddSignature` call). -/
def batchOne : Batch :=
  { pending_signatures := [[0]], pending_hashes := [0], pending_pubkeys := [[0]] }

/-- A two-entry batch. -/
def batchTwo : Batch :=
  { pending_signatures := [[0], [1]], pending_hashes := [0, 1], pending_pubkeys := [[0], [1]] }

/-- A 256-entry batch (256 successful `AddSignature` calls). -/
def batch256 : Batch :=
  { pending_signatures := List.replicate 256 [0]
    pending_hashes := List.replicate 256 0
    pending_pubkeys := List.replicate 256 [0] }

/-- A structurally valid one-signature artifact whose first stored response
coefficient decodes to the out-of-range value `8380417 = dilithiumQ`
(little-endian bytes `[1, 224, 127, 0]`), and whose trailing commitment bytes
match `trivialHasher`'s commitment for its stored message hash. -/
def outOfRangeAgg : SimpleAggregatedSignature :=
  { aggregated_data := 0x51 :: 1 :: ([1, 224, 127, 0] ++ List.replicate 28 0 ++ [0, 0, 0])
    message_hashes := [0]
    pubkey_data := [[0]]
    signature_count := 1
    aggregation_timestamp := 0 }

/-! ### Model of the advanced aggregator (`advanced_aggregation.{h,cpp}`),
namespace `AdvancedDilithiumAggregation` -/

/-- Model of `struct UltraCompressedSignature` (advanced_aggregation.h). -/
structure UltraCompressedSignature where
  magic_byte : Nat
  signature_count : Nat
  aggregated_z : List Nat
  challenge_hash : List Nat
  verification_key : Nat
deriving DecidableEq, Repr

/-- Model of `UltraCompressedSignature::IsValid` (advanced_aggregation.h). -/
def UltraCompressedSignature.IsValid (s : UltraCompressedSignature) : Prop :=
  s.magic_byte = 0x51 ∧ 0 < s.signature_count

instance (s : UltraCompressedSignature) : Decidable s.IsValid := by
  unfold UltraCompressedSignature.IsValid; infer_instance

/-- Model of a 64-bit left rotation `(v << k) | (v >> (64 - k))` on `uint64_t`
(for `0 < k < 64` the two lanes are disjoint, so the bit-or is the sum). -/
def rotl64 (v k : Nat) : Nat :=
  v % 2 ^ 64 * 2 ^ k % 2 ^ 64 + v % 2 ^ 64 / 2 ^ (64 - k)

/-- Model of the `pk_essence` little-endian combine of the first 8 public-key
bytes in `compute_batch_verification_key`. -/
def pkEssence (pk : List Nat) : Nat :=
  (List.range 8).foldl (fun acc i => acc + pk.getD i 0 % 256 * 2 ^ (i * 8)) 0

/-- Model of `AdvancedDilithiumAggregator::compute_batch_verification_key`
(advanced_aggregation.cpp): fold the pubkey essences (for pubkeys of at least
8 bytes) and then the hashes' `GetUint64(0)` words into a rolling
xor-and-rotate key starting from `0x51515151`. -/
def computeBatchVerificationKey (pubkeys : List (List Nat)) (hashes : List Nat) : Nat :=
  (hashes.foldl (fun vk hv => rotl64 (Nat.xor vk (hv % 2 ^ 64)) 3)
    (pubkeys.foldl
      (fun vk pk => if 8 ≤ pk.length then rotl64 (Nat.xor vk (pkEssence pk)) 5 else vk)
      0x51515151))

/-- Model of the per-hash `hash_essence` in `compress_challenges`: xor of the
four `GetUint64` words of a `uint256`. -/
def hashEssence (v : Nat) : Nat :=
  Nat.xor (Nat.xor (v % 2 ^ 64) (v / 2 ^ 64 % 2 ^ 64))
    (Nat.xor (v / 2 ^ 128 % 2 ^ 64) (v / 2 ^ 192 % 2 ^ 64))

/-- Model of `AdvancedDilithiumAggregator::compress_challenges`
(advanced_aggregation.cpp): zero vector for an empty hash list; otherwise the
8 little-endian bytes of the xor-rotate aggregate of the hash essences. -/
def compressChallenges (hashes : List Nat) : List Nat :=
  if hashes.isEmpty then List.replicate 8 0
  else
    (List.range 8).map fun i =>
      (hashes.foldl (fun a hv => rotl64 (Nat.xor a (hashEssence hv)) 7) 0) / 2 ^ (i * 8) % 256

/-- Model of `AdvancedDilithiumAggregator::UltraVerify`
(advanced_aggregation.cpp): structure check, count check against both caller
lists, verification-key recomputation, challenge recomputation, and finally
the range check of every `aggregated_z` coefficient against `DILITHIUM_Q`. -/
def UltraVerify (sig : UltraCompressedSignature) (pubkeys : List (List Nat))
    (hashes : List Nat) : Bool :=
  if sig.IsValid then
    if sig.signature_count = pubkeys.length ∧ sig.signature_count = hashes.length then
      if sig.verification_key = computeBatchVerificationKey pubkeys hashes then
        if sig.challenge_hash = compressChallenges hashes then
          sig.aggregated_z.all fun z => decide (z < dilithiumQ)
        else false
      else false
    else false
  else false

/-! ### Claims -/

/-- C1 counterexample: a 256-entry batch in which (under `primAccepts`) every
entry individually verifies, yet `VerifyAggregated` rejects `Aggregate`'s own
output: the stored one-byte count wraps to `256 % 256 = 0` and fails the count
check against `signature_count = 256`. -/
theorem claim1_counterexample :
    batch256.pending_signatures ≠ [] ∧ EntriesVerify primAccepts batch256 ∧
      VerifyAggregated trivialHasher (Aggregate trivialHasher 0 batch256) = false := by
  have hne : batch256.pending_signatures ≠ [] := by simp [batch256]
  have hlen : batch256.pending_signatures.length = 256 := by simp [batch256]
  refine ⟨hne, fun i _ => rfl, ?_⟩
  have hwf : batch256.Wf := by constructor <;> simp [batch256]
  have hvalid := aggregate_isValid trivialHasher 0 batch256 hwf hne (by rw [hlen]; norm_num)
  unfold VerifyAggregated
  rw [if_pos hvalid, aggregate_data_length trivialHasher 0 batch256 hne,
    if_neg (by omega), if_pos (by rw [aggregate_data_getD0 trivialHasher 0 batch256 hne]),
    if_neg (by
      rw [aggregate_data_getD1 trivialHasher 0 batch256 hne,
        aggregate_count trivialHasher 0 batch256 hne, hlen]
      omega)]

/-- C1 (amended): for every primitive, hasher, wall-clock value, and
well-formed non-empty batch of fewer than 256 entries whose entries all
individually verify, `Aggregate` succeeds (its output passes `IsValid`) and
`VerifyAggregated` accepts that output.  At 256 entries or more the round trip
fails (see the counterexample); the individual-verification hypothesis is
never consulted by the code. -/
theorem claim1_roundtrip (prim : List Nat → Nat → List Nat → Bool)
    (hasher : List Nat → Nat) (now : Nat) (b : Batch) (hwf : b.Wf)
    (hne : b.pending_signatures ≠ []) (hlt : b.pending_signatures.length < 256)
    (_hverif : EntriesVerify prim b) :
    (Aggregate hasher now b).IsValid ∧
      VerifyAggregated hasher (Aggregate hasher now b) = true :=
  ⟨aggregate_isValid hasher now b hwf hne (by omega),
   verify_aggregate_roundtrip hasher now b hwf hne hlt⟩

/-- C1 witness: the one-entry batch round-trips. -/
theorem claim1_witness :
    batchOne.Wf ∧ batchOne.pending_signatures ≠ [] ∧
      batchOne.pending_signatures.length < 256 ∧ EntriesVerify primAccepts batchOne ∧
      (Aggregate trivialHasher 5 batchOne).IsValid ∧
      VerifyAggregated trivialHasher (Aggregate trivialHasher 5 batchOne) = true := by
  have h := claim1_roundtrip primAccepts trivialHasher 5 batchOne (by decide) (by decide)
    (by decide) (fun i _ => rfl)
  exact ⟨by decide, by decide, by decide, fun i _ => rfl, h.1, h.2⟩

/-- C2 counterexample: with correctly sized all-zero inputs that do not verify
under the primitive (`primRejects`), `AddSignature` nevertheless returns
success and the batch length grows from 0 to 1 — the prototype never invokes
the primitive at all. -/
theorem claim2_counterexample :
    primRejects (List.replicate 1952 0) 0 (List.replicate 3309 0) = false ∧
      (AddSignature emptyBatch (List.replicate 3309 0) (List.replicate 1952 0) 0).1 = true ∧
      (AddSignature emptyBatch (List.replicate 3309 0)
        (List.replicate 1952 0) 0).2.pending_signatures.length = 1 := by
  have h : ((List.replicate 3309 (0 : Nat)).isEmpty ||
      (List.replicate 1952 (0 : Nat)).isEmpty) = false := by
    simp
  refine ⟨rfl, ?_, ?_⟩ <;> simp [AddSignature, h, emptyBatch]

/-- C2 (amended): `AddSignature` performs no individual verification: every
call with a non-empty signature and pubkey returns success and appends the
entry — even under a primitive for which the signature does not verify. -/
theorem claim2_no_verification (prim : List Nat → Nat → List Nat → Bool)
    (b : Batch) (sig pk : List Nat) (d : Nat) (hs : sig ≠ []) (hp : pk ≠ [])
    (_hbad : prim pk d sig = false) :
    (AddSignature b sig pk d).1 = true ∧
      (AddSignature b sig pk d).2.pending_signatures = b.pending_signatures ++ [sig] ∧
      (AddSignature b sig pk d).2.pending_hashes = b.pending_hashes ++ [d] ∧
      (AddSignature b sig pk d).2.pending_pubkeys = b.pending_pubkeys ++ [pk] := by
  have h : (sig.isEmpty || pk.isEmpty) = false := by simp [List.isEmpty_iff, hs, hp]
  simp [AddSignature, h]

/-- C2 witness. -/
theorem claim2_witness :
    ([5] : List Nat) ≠ [] ∧ ([6] : List Nat) ≠ [] ∧ primRejects [6] 7 [5] = false ∧
      (AddSignature batchOne [5] [6] 7).1 = true ∧
      (AddSignature batchOne [5] [6] 7).2.pending_signatures =
        batchOne.pending_signatures ++ [[5]] := by
  have h := claim2_no_verification primRejects batchOne [5] [6] 7 (by decide) (by decide) rfl
  exact ⟨by decide, by decide, rfl, h.1, h.2.1⟩

/-- C3 counterexample: a valid artifact still verifies after its stored
public-key list is replaced by a different same-length list — public-key
substitution is never rejected, because verification never reads the
public-key bytes. -/
theorem claim3_counterexample :
    VerifyAggregated trivialHasher (Aggregate trivialHasher 0 batchOne) = true ∧
      ([[1]] : List (List Nat)) ≠ (Aggregate trivialHasher 0 batchOne).pubkey_data ∧
      VerifyAggregated trivialHasher
        { Aggregate trivialHasher 0 batchOne with pubkey_data := [[1]] } = true := by
  have hne : batchOne.pending_signatures ≠ [] := by decide
  have hrt := verify_aggregate_roundtrip trivialHasher 0 batchOne (by decide) hne (by decide)
  have hpk := aggregate_pubkeys trivialHasher 0 batchOne hne
  refine ⟨hrt, ?_, ?_⟩
  · rw [hpk]; decide
  · rw [verify_pubkey_invariant trivialHasher _ [[1]] (by rw [hpk]; decide)]
    exact hrt

/-- C3 (amended): substituting a message-hash list whose recomputed
commitment differs from the stored one makes `VerifyAggregated` reject (the
hash-commitment comparison is the only content check; every earlier
structural failure also yields `false`); substituting only the public keys is
never detected (see the counterexample). -/
theorem claim3_digest_substitution (hasher : List Nat → Nat) (now : Nat) (b : Batch)
    (hs2 : List Nat) (hne : b.pending_signatures ≠ [])
    (_hlen : hs2.length = b.pending_hashes.length)
    (hneq : hashCommitment hasher hs2 % 2 ^ 24 ≠
      hashCommitment hasher b.pending_hashes % 2 ^ 24) :
    VerifyAggregated hasher
      { Aggregate hasher now b with message_hashes := hs2 } = false := by
  have hdata :
      ({ Aggregate hasher now b with message_hashes := hs2} :
        SimpleAggregatedSignature).aggregated_data = (Aggregate hasher now b).aggregated_data :=
    rfl
  obtain ⟨h34, h35, h36⟩ := aggregate_data_last3 hasher now b hne
  unfold VerifyAggregated
  by_cases hv : ({ Aggregate hasher now b with message_hashes := hs2} :
      SimpleAggregatedSignature).IsValid
  · rw [if_pos hv, hdata, aggregate_data_length hasher now b hne, if_neg (by omega),
      if_pos (by rw [aggregate_data_getD0 hasher now b hne])]
    by_cases hcb : (Aggregate hasher now b).aggregated_data.getD 1 0 % 256 =
        ({ Aggregate hasher now b with message_hashes := hs2} :
          SimpleAggregatedSignature).signature_count
    · rw [if_pos hcb]
      have e3 : (37 : Nat) - 3 = 34 := rfl
      have e2 : (37 : Nat) - 2 = 35 := rfl
      have e1 : (37 : Nat) - 1 = 36 := rfl
      rw [e3, e2, e1, h34, h35, h36]
      rw [show ({ Aggregate hasher now b with message_hashes := hs2} :
        SimpleAggregatedSignature).message_hashes = hs2 from rfl]
      rw [commitment_bytes_reassemble]
      exact decide_eq_false fun h => hneq (h.symm)
    · rw [if_neg hcb]
  · rw [if_neg hv]

/-- C3 witness: replacing the single stored digest `0` by `1` under
`headHasher` changes the commitment and verification rejects. -/
theorem claim3_witness :
    batchOne.pending_signatures ≠ [] ∧
      ([1] : List Nat).length = batchOne.pending_hashes.length ∧
      hashCommitment headHasher [1] % 2 ^ 24 ≠
        hashCommitment headHasher batchOne.pending_hashes % 2 ^ 24 ∧
      VerifyAggregated headHasher
        { Aggregate headHasher 0 batchOne with message_hashes := [1] } = false :=
  ⟨by decide, by decide, by decide,
   claim3_digest_substitution headHasher 0 batchOne [1] (by decide) (by decide) (by decide)⟩

/-- C4 counterexample: two `Aggregate` calls on the same batch at wall-clock
seconds 0 and 1 produce different artifacts — `aggregation_timestamp` records
the system clock, so the output is not bit-identical across calls. -/
theorem claim4_counterexample :
    (Aggregate trivialHasher 0 batchOne).aggregation_timestamp = 0 ∧
      (Aggregate trivialHasher 1 batchOne).aggregation_timestamp = 1 ∧
      Aggregate trivialHasher 0 batchOne ≠ Aggregate trivialHasher 1 batchOne := by
  have hne : batchOne.pending_signatures ≠ [] := by decide
  have h0 := aggregate_timestamp trivialHasher 0 batchOne hne
  have h1 := aggregate_timestamp trivialHasher 1 batchOne hne
  have e0 : (0 : Nat) % 2 ^ 64 = 0 := by norm_num
  have e1 : (1 : Nat) % 2 ^ 64 = 1 := by norm_num
  refine ⟨by rw [h0, e0], by rw [h1, e1], fun h => ?_⟩
  have hts := congrArg SimpleAggregatedSignature.aggregation_timestamp h
  rw [h0, h1, e0, e1] at hts
  exact absurd hts (by decide)

/-- C4 (amended): `Aggregate` is deterministic in everything except the
`aggregation_timestamp` field (the wall-clock read): all other output fields
agree across calls at different times; and `VerifyAggregated` never reads the
timestamp, so verification of otherwise-identical inputs is identical. -/
theorem claim4_deterministic_modulo_timestamp (hasher : List Nat → Nat)
    (t1 t2 : Nat) (b : Batch) (a : SimpleAggregatedSignature) (t : Nat) :
    ((Aggregate hasher t1 b).aggregated_data = (Aggregate hasher t2 b).aggregated_data ∧
      (Aggregate hasher t1 b).message_hashes = (Aggregate hasher t2 b).message_hashes ∧
      (Aggregate hasher t1 b).pubkey_data = (Aggregate hasher t2 b).pubkey_data ∧
      (Aggregate hasher t1 b).signature_count = (Aggregate hasher t2 b).signature_count) ∧
      VerifyAggregated hasher { a with aggregation_timestamp := t } =
        VerifyAggregated hasher a := by
  constructor
  · unfold Aggregate
    split <;> exact ⟨rfl, rfl, rfl, rfl⟩
  · rfl

/-- C5: a mismatch between the artifact's stored public-key or message-hash
list length and `signature_count` makes `VerifyAggregated` reject via the
`IsValid()` precheck, before and independent of any proof-byte inspection:
the result stays `false` for every choice of `aggregated_data`. -/
theorem claim5_count_mismatch (hasher : List Nat → Nat) (a : SimpleAggregatedSignature)
    (hmis : a.pubkey_data.length ≠ a.signature_count ∨
      a.message_hashes.length ≠ a.signature_count) :
    VerifyAggregated hasher a = false ∧
      ∀ d, VerifyAggregated hasher { a with aggregated_data := d } = false := by
  have hv : ¬ a.IsValid := fun h => hmis.elim (fun hm => hm h.2.2.2) (fun hm => hm h.2.2.1)
  constructor
  · unfold VerifyAggregated; rw [if_neg hv]
  · intro d
    have hv2 : ¬ ({ a with aggregated_data := d } : SimpleAggregatedSignature).IsValid :=
      fun h => hmis.elim (fun hm => hm h.2.2.2) (fun hm => hm h.2.2.1)
    unfold VerifyAggregated; rw [if_neg hv2]

/-- C5 witness. -/
theorem claim5_witness :
    (([] : List (List Nat)).length ≠ 1 ∨ ([] : List Nat).length ≠ 1) ∧
      VerifyAggregated trivialHasher ⟨[1], [], [], 1, 0⟩ = false ∧
      VerifyAggregated trivialHasher ⟨[9, 9], [], [], 1, 0⟩ = false := by
  have h := claim5_count_mismatch trivialHasher ⟨[1], [], [], 1, 0⟩ (Or.inl (by decide))
  exact ⟨Or.inl (by decide), h.1, h.2 [9, 9]⟩

/-- C6 counterexample: the prototype verifier accepts an artifact whose first
stored response coefficient decodes to `8380417 = dilithiumQ` (out of range);
`VerifyAggregated` decodes the coefficients but never range-checks them. -/
theorem claim6_counterexample :
    dilithiumQ ≤ (storedResponse outOfRangeAgg.aggregated_data).getD 0 0 ∧
      VerifyAggregated trivialHasher outOfRangeAgg = true := by decide

/-- C6 (amended): the prototype `VerifyAggregated` performs no coefficient
range check (see the counterexample); in the advanced aggregator,
`UltraVerify` returns `false` for every artifact whose `aggregated_z`
contains a coefficient `≥ 8380417`, and never reduces such a coefficient —
though the range check runs last, after the key and challenge checks, not
immediately. -/
theorem claim6_ultra_range_check (sig : UltraCompressedSignature)
    (pubkeys : List (List Nat)) (hashes : List Nat) (z : Nat)
    (hz : z ∈ sig.aggregated_z) (hge : dilithiumQ ≤ z) :
    UltraVerify sig pubkeys hashes = false := by
  unfold UltraVerify
  split_ifs with h1 h2 h3 h4 <;> try rfl
  cases hall : sig.aggregated_z.all fun w => decide (w < dilithiumQ) with
  | false => rfl
  | true =>
    exfalso
    have := List.all_eq_true.mp hall z hz
    rw [decide_eq_true_eq] at this
    omega

/-- C6 witness. -/
theorem claim6_witness :
    (8380417 : Nat) ∈ (⟨0x51, 1, [8380417, 0, 0, 0], List.replicate 8 0, 0⟩ :
        UltraCompressedSignature).aggregated_z ∧
      UltraVerify ⟨0x51, 1, [8380417, 0, 0, 0], List.replicate 8 0, 0⟩ [[0]] [0] = false :=
  ⟨by decide, claim6_ultra_range_check _ [[0]] [0] 8380417 (by decide) (by decide)⟩

/-- C7 counterexample: a 1-byte signature and 1-byte pubkey (wrong sizes for
Dilithium3) are accepted: `AddSignature` returns success and the batch is
modified — no `SizeMismatch`-style rejection exists. -/
theorem claim7_counterexample :
    ([7] : List Nat).length ≠ 3309 ∧ ([9] : List Nat).length ≠ 1952 ∧
      (AddSignature emptyBatch [7] [9] 0).1 = true ∧
      (AddSignature emptyBatch [7] [9] 0).2 ≠ emptyBatch := by decide

/-- C7 (amended): `AddSignature` does not enforce the fixed sizes 3309/1952
(wrong sizes only produce a console warning): every non-empty signature and
pubkey is appended with a success result; only an empty signature or pubkey
is rejected, before any other work, with the batch left unchanged. -/
theorem claim7_size_not_enforced :
    (∀ (b : Batch) (sig pk : List Nat) (d : Nat), sig ≠ [] → pk ≠ [] →
        (AddSignature b sig pk d).1 = true ∧
          (AddSignature b sig pk d).2.pending_signatures = b.pending_signatures ++ [sig]) ∧
      ∀ (b : Batch) (sig pk : List Nat) (d : Nat), sig = [] ∨ pk = [] →
        AddSignature b sig pk d = (false, b) := by
  constructor
  · intro b sig pk d hs hp
    have h : (sig.isEmpty || pk.isEmpty) = false := by simp [List.isEmpty_iff, hs, hp]
    simp [AddSignature, h]
  · intro b sig pk d hor
    have h : (sig.isEmpty || pk.isEmpty) = true := by
      rcases hor with h | h <;> simp [h]
    simp [AddSignature, h]

/-- C7 witness. -/
theorem claim7_witness :
    (([7] : List Nat) ≠ [] ∧ ([9] : List Nat) ≠ []) ∧
      (AddSignature batchOne [7] [9] 3).1 = true ∧
      (AddSignature batchOne [7] [9] 3).2.pending_signatures =
        batchOne.pending_signatures ++ [[7]] ∧
      AddSignature batchTwo [] [9] 3 = (false, batchTwo) := by
  have h := claim7_size_not_enforced.1 batchOne [7] [9] 3 (by decide) (by decide)
  exact ⟨⟨by decide, by decide⟩, h.1, h.2, claim7_size_not_enforced.2 batchTwo [] [9] 3 (Or.inl rfl)⟩

/-- C8 counterexample: after `Aggregate`, the batch still holds its entry
(live, unchanged), and a second `Aggregate` without any `ClearBatch` succeeds
on the retained entries — the batch is not consumed. -/
theorem claim8_counterexample :
    (AggregateCall trivialHasher 0 batchOne).2 = batchOne ∧
      (AggregateCall trivialHasher 0 batchOne).2.pending_signatures ≠ [] ∧
      (Aggregate trivialHasher 0 (AggregateCall trivialHasher 0 batchOne).2).signature_count
        = 1 := by
  refine ⟨rfl, by decide, ?_⟩
  rw [show (AggregateCall trivialHasher 0 batchOne).2 = batchOne from rfl,
    aggregate_count trivialHasher 0 batchOne (by decide)]
  decide

/-- C8 (amended): `Aggregate` does not consume the batch: the pending entries
are retained unchanged (the method's only member write is the benchmark log),
a repeated `Aggregate` without reset re-aggregates the same entries to the
same artifact, and only an explicit `ClearBatch` empties the batch. -/
theorem claim8_batch_retained (hasher : List Nat → Nat) (now : Nat) (b : Batch) :
    (AggregateCall hasher now b).2 = b ∧
      Aggregate hasher now (AggregateCall hasher now b).2 = Aggregate hasher now b ∧
      ClearBatch (AggregateCall hasher now b).2 = emptyBatch :=
  ⟨rfl, rfl, rfl⟩

/-- C9: for every non-empty batch the compressed proof byte string
`aggregated_data` has the fixed length 37 — independent of the number of
aggregated signatures — while `signature_count` and the per-entry metadata
lists carry the growth. -/
theorem claim9_constant_proof_size (hasher : List Nat → Nat) (now : Nat) (b : Batch)
    (hne : b.pending_signatures ≠ []) :
    (Aggregate hasher now b).aggregated_data.length = 37 ∧
      (Aggregate hasher now b).signature_count = b.pending_signatures.length % 2 ^ 32 ∧
      (Aggregate hasher now b).message_hashes = b.pending_hashes ∧
      (Aggregate hasher now b).pubkey_data = b.pending_pubkeys :=
  ⟨aggregate_data_length hasher now b hne, aggregate_count hasher now b hne,
   aggregate_hashes hasher now b hne, aggregate_pubkeys hasher now b hne⟩

/-- C9 witness: the proof size is 37 bytes at batch sizes 1, 2 and 256. -/
theorem claim9_witness :
    batchOne.pending_signatures ≠ [] ∧
      (Aggregate trivialHasher 0 batchOne).aggregated_data.length = 37 ∧
      batchTwo.pending_signatures ≠ [] ∧
      (Aggregate trivialHasher 0 batchTwo).aggregated_data.length = 37 ∧
      batch256.pending_signatures ≠ [] ∧
      (Aggregate trivialHasher 0 batch256).aggregated_data.length = 37 := by
  have hne256 : batch256.pending_signatures ≠ [] := by simp [batch256]
  exact ⟨by decide, (claim9_constant_proof_size trivialHasher 0 batchOne (by decide)).1,
    by decide, (claim9_constant_proof_size trivialHasher 0 batchTwo (by decide)).1,
    hne256, (claim9_constant_proof_size trivialHasher 0 batch256 hne256).1⟩

/-- C10: verification is independent of the artifact's stored public-key
bytes: replacing `pubkey_data` by any other list of the same length (equal to
`signature_count`) yields the same `VerifyAggregated` result, since
verification reads only the proof bytes, the count and the message hashes. -/
theorem claim10_pubkey_independent (hasher : List Nat → Nat)
    (a : SimpleAggregatedSignature) (pk2 : List (List Nat))
    (h1 : a.pubkey_data.length = a.signature_count)
    (h2 : pk2.length = a.signature_count) :
    VerifyAggregated hasher { a with pubkey_data := pk2 } = VerifyAggregated hasher a :=
  verify_pubkey_invariant hasher a pk2 (h2.trans h1.symm)

/-- C10 witness. -/
theorem claim10_witness :
    outOfRangeAgg.pubkey_data.length = outOfRangeAgg.signature_count ∧
      ([[5]] : List (List Nat)).length = outOfRangeAgg.signature_count ∧
      VerifyAggregated trivialHasher { outOfRangeAgg with pubkey_data := [[5]] } =
        VerifyAggregated trivialHasher outOfRangeAgg :=
  ⟨by decide, by decide,
   claim10_pubkey_independent trivialHasher outOfRangeAgg [[5]] (by decide) (by decide)⟩

end QbitcoinAgg
